import Mathlib

/-!
Shallow embedding of the `p5js-course` editor widget
(`docs/js/editor.js`, class `P5CodeEditor`) and the theme toggle
(`docs/js/theme.js`), with theorems settling the specification's claims.

JavaScript strings are `String`; a nullable DOM reference is `Option`;
JS string truthiness (`if (str)`) is `str ≠ ""`; a thrown exception is
`Except.error`.
-/

/-- One recorded console message, the object pushed by
`addConsoleMessage` (`this.consoleMessages.push({ method, args })`). -/
structure ConsoleMsg where
  method : String
  args : List String
deriving DecidableEq

/-- One child node of the `.console-messages` element: the placeholder
`div` created by `createStructure`, or a message `div` appended by
`addConsoleMessage` (with its `className` and `textContent`). -/
inductive PanelNode where
  | placeholder : PanelNode
  | message (className : String) (text : String) : PanelNode
deriving DecidableEq

/-- The constructor's option bag with its default values
(`this.options = { theme: ..., ...options }`). -/
structure EditorOptions where
  theme : String := "tomorrow-night-eighties"
  fontSize : Nat := 14
  lineNumbers : Bool := true
  autoRun : Bool := true
  showConsole : Bool := true
  previewWidth : Nat := 400
  previewHeight : Nat := 400
  filename : Option String := none
  initialCode : Option String := none
deriving DecidableEq

/-- The mutable state of a `P5CodeEditor` instance: the CodeMirror
buffer, `this.originalCode`, `this.consoleMessages`, the children of
`this.consoleMessagesEl` (`none` when the element is absent, i.e. when
`showConsole` was false), the `src` of the preview iframe, `this.examples`
and the `active` flags of the example tabs. -/
structure EditorState where
  buffer : String
  originalCode : String
  consoleMessages : List ConsoleMsg
  panel : Option (List PanelNode)
  previewSrc : Option String
  examples : List (String × String)
  tabs : List Bool
  tabsVisible : Bool
deriving DecidableEq

/-- `typeof` on the JS value of `event.data.args` as far as the widget
inspects it: either an array whose elements the shim already stringified,
or some other value on which `.join` is not a function. -/
inductive JSArgs where
  | strings (l : List String) : JSArgs
  | notAnArray : JSArgs
deriving DecidableEq

/-- The part of a `message` event the listener in `bindEvents` inspects:
whether `event.data` is truthy, whether `event.data.type === 'console'`,
and the `method` (as the string it coerces to) and `args` fields. -/
structure EventData where
  truthy : Bool
  typeIsConsole : Bool
  method : String
  args : JSArgs
deriving DecidableEq

namespace P5CodeEditor

/-- `createStructure()`: fresh DOM; the console block (with its
placeholder `div`) exists iff `options.showConsole`; the CodeMirror
buffer starts empty, `originalCode` starts `''`, `consoleMessages`
starts `[]`, the examples tab strip starts hidden and empty. -/
def createStructure (opts : EditorOptions) : EditorState :=
  { buffer := ""
    originalCode := ""
    consoleMessages := []
    panel := if opts.showConsole then some [PanelNode.placeholder] else none
    previewSrc := none
    examples := []
    tabs := []
    tabsVisible := false }

/-- `setCode(code)`: `this.originalCode = code; this.editor.setValue(code)`. -/
def setCode (s : EditorState) (code : String) : EditorState :=
  { s with originalCode := code, buffer := code }

/-- `getCode()`: `return this.editor.getValue()`. -/
def getCode (s : EditorState) : String :=
  s.buffer

/-- A user edit of the CodeMirror buffer (typing): replaces the buffer
text, touching nothing else. -/
def editBuffer (s : EditorState) (text : String) : EditorState :=
  { s with buffer := text }

/-- `clearConsole()`: `if (this.consoleMessagesEl) this.consoleMessagesEl.innerHTML = '';
this.consoleMessages = [];`. Note the panel is left empty, with no placeholder. -/
def clearConsole (s : EditorState) : EditorState :=
  { s with panel := s.panel.map (fun _ => []), consoleMessages := [] }

/-- The text of `generatePreviewHTML` before the `${code}` splice
(literal braces written as \x7b and \x7d). -/
def previewHead : String :=
"
<!DOCTYPE html>
<html>
<head>
    <meta charset=\"UTF-8\">
    <script src=\"https://cdnjs.cloudflare.com/ajax/libs/p5.js/1.9.0/p5.min.js\"></script>
    <style>
        * \x7b margin: 0; padding: 0; box-sizing: border-box; \x7d
        body \x7b
            background: #000;
            overflow: hidden;
            display: flex;
            justify-content: center;
            align-items: center;
            min-height: 100vh;
        \x7d
        canvas \x7b
            display: block;
        \x7d
    </style>
</head>
<body>
    <script>
        // Override console methods to send messages to parent
        (function() \x7b
            const originalConsole = \x7b
                log: console.log,
                error: console.error,
                warn: console.warn,
                info: console.info
            \x7d;

            function sendToParent(method, args) \x7b
                try \x7b
                    window.parent.postMessage(\x7b
                        type: 'console',
                        method: method,
                        args: Array.from(args).map(arg => \x7b
                            if (typeof arg === 'object') \x7b
                                try \x7b
                                    return JSON.stringify(arg);
                                \x7d catch(e) \x7b
                                    return String(arg);
                                \x7d
                            \x7d
                            return String(arg);
                        \x7d)
                    \x7d, '*');
                \x7d catch(e) \x7b\x7d
            \x7d

            console.log = function() \x7b
                sendToParent('log', arguments);
                originalConsole.log.apply(console, arguments);
            \x7d;

            console.error = function() \x7b
                sendToParent('error', arguments);
                originalConsole.error.apply(console, arguments);
            \x7d;

            console.warn = function() \x7b
                sendToParent('warn', arguments);
                originalConsole.warn.apply(console, arguments);
            \x7d;

            console.info = function() \x7b
                sendToParent('info', arguments);
                originalConsole.info.apply(console, arguments);
            \x7d;

            window.onerror = function(message, source, lineno, colno, error) \x7b
                sendToParent('error', ['Error: ' + message + ' (line ' + lineno + ')']);
                return false;
            \x7d;
        \x7d)();
    </script>
    <script>
        try \x7b
            "

/-- The text of `generatePreviewHTML` after the `${code}` splice
(literal braces written as \x7b and \x7d). -/
def previewTail : String :=
"
        \x7d catch(err) \x7b
            console.error('Runtime Error: ' + err.message);
            function setup() \x7b
                createCanvas(400, 400);
                background(40);
                fill(255, 100, 100);
                textAlign(CENTER, CENTER);
                textSize(16);
                text('Error: ' + err.message, width/2, height/2);
                noLoop();
            \x7d
        \x7d
    </script>
</body>
</html>"

/-- `generatePreviewHTML(code)`: the template literal with `${code}`
spliced into the try block. -/
def generatePreviewHTML (code : String) : String :=
  previewHead ++ code ++ previewTail

/-- `runCode()`: reads the buffer, calls `clearConsole()`, then loads
the generated preview document into the iframe (a fresh blob URL; we
record the document text it serves). -/
def runCode (s : EditorState) : EditorState :=
  let code := getCode s
  let s' := clearConsole s
  { s' with previewSrc := some (generatePreviewHTML code) }

/-- `resetCode()`: `if (this.originalCode) { this.editor.setValue(this.originalCode);
this.runCode(); }` — the guard is JS string truthiness, so an empty
original is not restored. -/
def resetCode (s : EditorState) : EditorState :=
  if s.originalCode ≠ "" then runCode (editBuffer s s.originalCode)
  else s

/-- `addConsoleMessage(method, args)`: returns immediately when
`this.consoleMessagesEl` is absent; otherwise appends a
`console-message ${method}` div with text `args.join(' ')` (a TypeError
is thrown when `args` has no `.join`) and pushes `{ method, args }`. -/
def addConsoleMessage (s : EditorState) (method : String) (args : JSArgs) :
    Except String EditorState :=
  match s.panel with
  | none => Except.ok s
  | some nodes =>
    match args with
    | JSArgs.notAnArray => Except.error "TypeError: args.join is not a function"
    | JSArgs.strings l =>
        Except.ok { s with
          panel := some (nodes ++
            [PanelNode.message ("console-message " ++ method) (String.intercalate " " l)])
          consoleMessages := s.consoleMessages ++ [{ method := method, args := l }] }

/-- The `message` listener installed by `bindEvents`:
`if (event.data && event.data.type === 'console')
   this.addConsoleMessage(event.data.method, event.data.args)`. -/
def onMessage (s : EditorState) (e : EventData) : Except String EditorState :=
  if e.truthy && e.typeIsConsole then addConsoleMessage s e.method e.args
  else Except.ok s

/-- `loadExample(index)`: returns when `this.examples[index]` is
undefined; otherwise toggles `active` on each tab (`i === index`), then
`setCode(example.code)` and `runCode()`. -/
def loadExample (s : EditorState) (index : Nat) : EditorState :=
  match s.examples.get? index with
  | none => s
  | some ex =>
      let s' := { s with tabs := (List.range s.tabs.length).map (fun i => decide (i = index)) }
      runCode (setCode s' ex.2)

/-- `setExamples(examples)`: hides the tab strip when the list is empty;
otherwise rebuilds the tabs (tab 0 initially active), stores the list
and calls `loadExample(0)`. -/
def setExamples (s : EditorState) (examples : List (String × String)) : EditorState :=
  if examples.isEmpty then { s with tabsVisible := false }
  else
    let s' := { s with tabsVisible := true
                       examples := examples
                       tabs := (List.range examples.length).map (fun i => decide (i = 0)) }
    loadExample s' 0

/-- JS string truthiness of the optional `initialCode` option. -/
def strTruthy : Option String → Bool
  | none => false
  | some t => t ≠ ""

/-- `init()`: `createStructure()` then
`if (this.options.autoRun && this.options.initialCode) { this.setCode(...); this.runCode(); }`. -/
def init (opts : EditorOptions) : EditorState :=
  let s := createStructure opts
  if opts.autoRun && strTruthy opts.initialCode then
    runCode (setCode s (opts.initialCode.getD ""))
  else s

/-- A JavaScript value as far as the shim's argument stringification
inspects it: its `typeof` class, its `String(...)` coercion (the
`render` fields), and for object-typed values the result of
`JSON.stringify` (`none` when that call throws, e.g. on a circular
structure). -/
inductive JSValue where
  | vString (s : String)
  | vNumber (render : String)
  | vBool (b : Bool)
  | vUndefined
  | vNull
  | vObject (json : Option String) (render : String)
  | vFunction (render : String)
deriving DecidableEq

/-- `typeof arg`. Note `typeof null === 'object'`. -/
def jsTypeof : JSValue → String
  | JSValue.vString _ => "string"
  | JSValue.vNumber _ => "number"
  | JSValue.vBool _ => "boolean"
  | JSValue.vUndefined => "undefined"
  | JSValue.vNull => "object"
  | JSValue.vObject _ _ => "object"
  | JSValue.vFunction _ => "function"

/-- `String(arg)`. -/
def jsString : JSValue → String
  | JSValue.vString s => s
  | JSValue.vNumber r => r
  | JSValue.vBool b => cond b "true" "false"
  | JSValue.vUndefined => "undefined"
  | JSValue.vNull => "null"
  | JSValue.vObject _ r => r
  | JSValue.vFunction r => r

/-- `JSON.stringify(arg)`, `none` when it throws. The shim only calls
this under `typeof arg === 'object'` (`vNull`, where it yields the text
`null`, and `vObject`, where the value carries its own result); on the
other classes — never reached under that guard — we return the string
coercion. -/
def jsonStringify : JSValue → Option String
  | JSValue.vNull => some "null"
  | JSValue.vObject j _ => j
  | v => some (jsString v)

/-- The `arg => { if (typeof arg === 'object') { try { return
JSON.stringify(arg) } catch(e) { return String(arg) } } return
String(arg) }` callback of `sendToParent`. -/
def stringifyArg (arg : JSValue) : String :=
  if jsTypeof arg = "object" then
    match jsonStringify arg with
    | some s => s
    | none => jsString arg
  else jsString arg

/-- The object `sendToParent(method, args)` posts to the parent:
`{ type: 'console', method: method, args: Array.from(args).map(...) }`. -/
structure ForwardedMessage where
  type : String
  method : String
  args : List String
deriving DecidableEq

/-- `sendToParent(method, args)`. -/
def sendToParent (method : String) (args : List JSValue) : ForwardedMessage :=
  { type := "console", method := method, args := args.map stringifyArg }

/-- The four console methods the shim overrides. -/
inductive CMethod where
  | log
  | error
  | warn
  | info
deriving DecidableEq

/-- The method name string the shim passes to `sendToParent`. -/
def CMethod.jsName : CMethod → String
  | CMethod.log => "log"
  | CMethod.error => "error"
  | CMethod.warn => "warn"
  | CMethod.info => "info"

/-- Abstract top-level evaluation of the user's code inside the preview
document: the intercepted console calls it makes, in order, and
`some message` when evaluation ends in an exception (caught by the
wrapping try/catch of `generatePreviewHTML`). -/
structure UserEval where
  calls : List (CMethod × List JSValue)
  throws : Option String
deriving DecidableEq

/-- What the generated preview document produces: the messages posted
to the parent, in order, and the text of the fallback error canvas when
the catch block installed its `setup`. -/
structure PreviewOutcome where
  forwarded : List ForwardedMessage
  fallbackText : Option String
deriving DecidableEq

/-- Semantics of the user-code script of the generated document:
`try { code } catch(err) { console.error('Runtime Error: ' + err.message);
function setup() { ... text('Error: ' + err.message, ...) ... } }`.
Every intercepted console call is forwarded by the shim; when the code
throws, the catch block makes one further `console.error` call and
installs the fallback error-canvas `setup`. -/
def runPreviewDoc (u : UserEval) : PreviewOutcome :=
  let userMsgs := u.calls.map (fun c => sendToParent c.1.jsName c.2)
  match u.throws with
  | none => { forwarded := userMsgs, fallbackText := none }
  | some m =>
      { forwarded := userMsgs ++
          [sendToParent "error" [JSValue.vString ("Runtime Error: " ++ m)]]
        fallbackText := some ("Error: " ++ m) }

/-- A posted `sendToParent` payload as the parent's listener sees it:
the object is truthy, its `type` field compares with 'console', its
`args` is an array of strings. -/
def ForwardedMessage.toEvent (f : ForwardedMessage) : EventData :=
  { truthy := true
    typeIsConsole := f.type == "console"
    method := f.method
    args := JSArgs.strings f.args }

/-- The parent listener's effect on a forwarded message, as a total
function (a forwarded message has string args, so `args.join` cannot
throw); `onMessage_toEvent` proves it agrees with `onMessage`. -/
def deliverForwarded (s : EditorState) (f : ForwardedMessage) : EditorState :=
  if f.type == "console" then
    match s.panel with
    | none => s
    | some nodes =>
        { s with
          panel := some (nodes ++
            [PanelNode.message ("console-message " ++ f.method) (String.intercalate " " f.args)])
          consoleMessages := s.consoleMessages ++ [{ method := f.method, args := f.args }] }
  else s

/-- The operations of the widget that can touch the console log:
`runCode`, `clearConsole`, a buffer edit, `setCode`, and the arrival of
a `message` event. -/
inductive ConsoleOp where
  | run
  | clear
  | edit (text : String)
  | set (code : String)
  | receive (e : EventData)
deriving DecidableEq

/-- One step of the widget under a `ConsoleOp`. -/
def stepConsole (s : EditorState) : ConsoleOp → Except String EditorState
  | ConsoleOp.run => Except.ok (runCode s)
  | ConsoleOp.clear => Except.ok (clearConsole s)
  | ConsoleOp.edit t => Except.ok (editBuffer s t)
  | ConsoleOp.set c => Except.ok (setCode s c)
  | ConsoleOp.receive e => onMessage s e

/-- A whole trace of `ConsoleOp`s. -/
def runTraceConsole (s : EditorState) : List ConsoleOp → Except String EditorState
  | [] => Except.ok s
  | op :: ops =>
      match stepConsole s op with
      | Except.ok s' => runTraceConsole s' ops
      | Except.error msg => Except.error msg

/-- The console messages a trace leaves in the log, starting from log
`acc`: empty after each `run`/`clear`, and each guard-passing `message`
event appends its payload in arrival order. -/
def expectedLog (acc : List ConsoleMsg) : List ConsoleOp → List ConsoleMsg
  | [] => acc
  | ConsoleOp.run :: ops => expectedLog [] ops
  | ConsoleOp.clear :: ops => expectedLog [] ops
  | ConsoleOp.edit _ :: ops => expectedLog acc ops
  | ConsoleOp.set _ :: ops => expectedLog acc ops
  | ConsoleOp.receive e :: ops =>
      if e.truthy && e.typeIsConsole then
        match e.args with
        | JSArgs.strings l => expectedLog (acc ++ [{ method := e.method, args := l }]) ops
        | JSArgs.notAnArray => expectedLog acc ops
      else expectedLog acc ops

/-- Every public operation of the widget. -/
inductive WidgetOp where
  | run
  | clear
  | edit (text : String)
  | set (code : String)
  | reset
  | load (index : Nat)
  | setEx (examples : List (String × String))
  | receive (e : EventData)
deriving DecidableEq

/-- One step of the widget under a `WidgetOp`. -/
def stepWidget (s : EditorState) : WidgetOp → Except String EditorState
  | WidgetOp.run => Except.ok (runCode s)
  | WidgetOp.clear => Except.ok (clearConsole s)
  | WidgetOp.edit t => Except.ok (editBuffer s t)
  | WidgetOp.set c => Except.ok (setCode s c)
  | WidgetOp.reset => Except.ok (resetCode s)
  | WidgetOp.load i => Except.ok (loadExample s i)
  | WidgetOp.setEx l => Except.ok (setExamples s l)
  | WidgetOp.receive e => onMessage s e

/-- A whole trace of `WidgetOp`s. -/
def runTraceWidget (s : EditorState) : List WidgetOp → Except String EditorState
  | [] => Except.ok s
  | op :: ops =>
      match stepWidget s op with
      | Except.ok s' => runTraceWidget s' ops
      | Except.error msg => Except.error msg

end P5CodeEditor

/-- The page state `theme.js` manipulates: the `data-theme` attribute
of the document element (`none` when absent), the persisted
`localStorage` theme value (`none` when never set), and the toggle
button's text. -/
structure ThemeState where
  dataTheme : Option String
  storedTheme : Option String
  icon : String
deriving DecidableEq

/-- The toggle's click handler: when `data-theme` is 'light', remove
the attribute, persist 'dark' and show the moon icon; otherwise set the
attribute to 'light', persist 'light' and show the sun icon. -/
def themeClick (t : ThemeState) : ThemeState :=
  if t.dataTheme = some "light" then
    { dataTheme := none, storedTheme := some "dark", icon := "🌙" }
  else
    { dataTheme := some "light", storedTheme := some "light", icon := "☀️" }

open P5CodeEditor

/-- The console log left by a listener invocation, empty when the
listener threw. -/
def logAfter : Except String EditorState → List ConsoleMsg
  | Except.ok s => s.consoleMessages
  | Except.error _ => []

/-- A freshly constructed widget with the default options (console
panel present, holding its placeholder). -/
def freshWidget : EditorState :=
  createStructure {}

/-- A `message` event with `type === 'console'` but a method outside
log/error/warn/info. -/
def bogusMethodEvent : EventData :=
  { truthy := true, typeIsConsole := true, method := "bogus", args := JSArgs.strings ["x"] }

/-- A `message` event with `type === 'console'` and a valid method but
an `args` value that is not an array. -/
def badArgsEvent : EventData :=
  { truthy := true, typeIsConsole := true, method := "log", args := JSArgs.notAnArray }

/-- Claim C1, counterexample: the listener only checks
`event.data && event.data.type === 'console'`. A message with a method
outside log/error/warn/info is not ignored — it is appended to the log —
and a message whose `args` has no `.join` makes the listener throw. -/
theorem consoleGuard_counterexample :
    logAfter (onMessage freshWidget bogusMethodEvent) =
      [{ method := "bogus", args := ["x"] }] ∧
    onMessage freshWidget badArgsEvent =
      Except.error "TypeError: args.join is not a function" :=
  ⟨rfl, rfl⟩

/-- Claim C1, amended: the listener ignores exactly the messages whose
data is falsy or whose `type` is not 'console'; for those, nothing is
appended and no exception escapes. (Messages with `type === 'console'`
are forwarded to `addConsoleMessage` whatever their method or args.) -/
theorem consoleGuard_ignores_only_nonConsole_type (s : EditorState) (e : EventData)
    (h : e.truthy = false ∨ e.typeIsConsole = false) :
    onMessage s e = Except.ok s := by
  rcases h with h | h <;> simp [onMessage, h]

/-- Witness for `consoleGuard_ignores_only_nonConsole_type` at a
concrete non-console message. -/
theorem consoleGuard_ignores_witness :
    onMessage freshWidget
      { truthy := true, typeIsConsole := false, method := "log", args := JSArgs.strings [] } =
      Except.ok freshWidget :=
  consoleGuard_ignores_only_nonConsole_type freshWidget _ (Or.inr rfl)

/-- The widget after `setCode('')` followed by a user edit typing `x`. -/
def emptyOriginalEdited : EditorState :=
  editBuffer (setCode freshWidget "") "x"

/-- Claim C2, counterexample: for `t = ''` (a falsy JS string),
`resetCode()` does nothing — the buffer keeps the edit and no run is
triggered — because of the `if (this.originalCode)` guard. -/
theorem resetCode_empty_counterexample :
    (resetCode emptyOriginalEdited).buffer = "x" ∧
    (resetCode emptyOriginalEdited).buffer ≠ "" ∧
    (resetCode emptyOriginalEdited).previewSrc = none :=
  ⟨rfl, by decide, rfl⟩

/-- Any sequence of buffer edits leaves `originalCode` untouched. -/
theorem foldl_editBuffer_originalCode (edits : List String) (s : EditorState) :
    (edits.foldl editBuffer s).originalCode = s.originalCode := by
  induction edits generalizing s with
  | nil => rfl
  | cons e rest ih => simpa [editBuffer] using ih (editBuffer s e)

/-- Claim C2, amended: for every nonempty `t`, after `setCode(t)` and
any sequence of buffer edits, `resetCode()` restores the buffer to `t`
and triggers a run (loading the preview generated from `t` and clearing
the console); for `t = ''` it does nothing. -/
theorem resetCode_restores_nonempty (s : EditorState) (t : String) (ht : t ≠ "")
    (edits : List String) :
    (resetCode (edits.foldl editBuffer (setCode s t))).buffer = t ∧
    (resetCode (edits.foldl editBuffer (setCode s t))).previewSrc =
      some (generatePreviewHTML t) ∧
    (resetCode (edits.foldl editBuffer (setCode s t))).consoleMessages = [] := by
  have horig : (edits.foldl editBuffer (setCode s t)).originalCode = t := by
    simpa [setCode] using foldl_editBuffer_originalCode edits (setCode s t)
  refine ⟨?_, ?_, ?_⟩ <;>
    simp [resetCode, horig, ht, runCode, getCode, clearConsole, editBuffer]

/-- Witness for `resetCode_restores_nonempty` at a concrete text and
edit sequence. -/
theorem resetCode_restores_witness :
    (resetCode (["a", ""].foldl editBuffer (setCode freshWidget "let x = 1"))).buffer =
      "let x = 1" ∧
    (resetCode (["a", ""].foldl editBuffer (setCode freshWidget "let x = 1"))).previewSrc =
      some (generatePreviewHTML "let x = 1") ∧
    (resetCode (["a", ""].foldl editBuffer (setCode freshWidget "let x = 1"))).consoleMessages =
      [] :=
  resetCode_restores_nonempty freshWidget "let x = 1" (by decide) ["a", ""]

/-- A widget state whose panel is showing the placeholder and one
logged message. -/
def panelWithMessage : EditorState :=
  { freshWidget with
    consoleMessages := [{ method := "log", args := ["hi"] }]
    panel := some [PanelNode.placeholder, PanelNode.message "console-message log" "hi"] }

/-- Claim C6, counterexample: `clearConsole()` sets
`consoleMessagesEl.innerHTML = ''` — the panel is left with no children
at all, not with the placeholder; the placeholder exists only in the
markup `createStructure` writes. -/
theorem clearConsole_no_placeholder :
    (clearConsole panelWithMessage).panel = some [] ∧
    (clearConsole panelWithMessage).panel ≠ some [PanelNode.placeholder] :=
  ⟨rfl, by decide⟩

/-- Claim C6, amended: `clearConsole()` empties the in-memory message
log (regardless of prior content) and empties the visible panel — the
panel is left without children; no placeholder is re-inserted. -/
theorem clearConsole_empties (s : EditorState) (nodes : List PanelNode)
    (h : s.panel = some nodes) :
    (clearConsole s).consoleMessages = [] ∧ (clearConsole s).panel = some [] := by
  simp [clearConsole, h]

/-- Witness for `clearConsole_empties` at a concrete panel. -/
theorem clearConsole_empties_witness :
    (clearConsole panelWithMessage).consoleMessages = [] ∧
    (clearConsole panelWithMessage).panel = some [] :=
  clearConsole_empties panelWithMessage
    [PanelNode.placeholder, PanelNode.message "console-message log" "hi"] rfl

/-- Claim C8 (confirmed): `setCode(t)` then `getCode()` before any edit
returns exactly `t`. -/
theorem getCode_setCode (s : EditorState) (t : String) :
    getCode (setCode s t) = t :=
  rfl

/-- A page whose document element carries `data-theme="dark"` (a value
the handler itself never writes) with 'dark' persisted. -/
def darkAttrPage : ThemeState :=
  { dataTheme := some "dark", storedTheme := some "dark", icon := "🌙" }

/-- Claim C7, counterexample: from `data-theme="dark"`, two clicks end
with the attribute removed, not restored to 'dark' — the handler only
distinguishes 'light' from everything else. -/
theorem themeClick_twice_counterexample :
    (themeClick (themeClick darkAttrPage)).dataTheme = none ∧
    darkAttrPage.dataTheme = some "dark" ∧
    (themeClick (themeClick darkAttrPage)).dataTheme ≠ darkAttrPage.dataTheme :=
  ⟨rfl, rfl, by decide⟩

/-- Claim C7, amended: two clicks restore both the document attribute
and the persisted value exactly from the two states the handler itself
produces — attribute 'light' with 'light' persisted, or attribute
absent with 'dark' persisted; from every other state double-toggling
normalizes instead of restoring. -/
theorem themeClick_twice_iff_canonical (t : ThemeState) :
    ((themeClick (themeClick t)).dataTheme = t.dataTheme ∧
     (themeClick (themeClick t)).storedTheme = t.storedTheme) ↔
    ((t.dataTheme = some "light" ∧ t.storedTheme = some "light") ∨
     (t.dataTheme = none ∧ t.storedTheme = some "dark")) := by
  by_cases h : t.dataTheme = some "light" <;>
    simp [themeClick, h, eq_comm]

/-- The canonical light state: attribute 'light', 'light' persisted,
sun icon. -/
def lightPage : ThemeState :=
  { dataTheme := some "light", storedTheme := some "light", icon := "☀️" }

/-- Witness for `themeClick_twice_iff_canonical`: double-toggling from
the canonical light state is the identity on attribute and storage. -/
theorem themeClick_twice_witness :
    (themeClick (themeClick lightPage)).dataTheme = lightPage.dataTheme ∧
    (themeClick (themeClick lightPage)).storedTheme = lightPage.storedTheme :=
  (themeClick_twice_iff_canonical lightPage).mpr (Or.inl ⟨rfl, rfl⟩)

/-- Claim C5 (confirmed): the shim's stringification — an object-typed
argument (`typeof arg === 'object'`) is serialized with
`JSON.stringify`, falling back to `String(arg)` when that throws; every
other argument is `String`-coerced; and the posted payload has type
'console', the given method, and the stringification of each argument
(hence every entry a string). -/
theorem stringifyArg_spec (arg : JSValue) (method : String) (args : List JSValue) :
    (jsTypeof arg = "object" →
      (∀ j, jsonStringify arg = some j → stringifyArg arg = j) ∧
      (jsonStringify arg = none → stringifyArg arg = jsString arg)) ∧
    (jsTypeof arg ≠ "object" → stringifyArg arg = jsString arg) ∧
    (sendToParent method args).type = "console" ∧
    (sendToParent method args).method = method ∧
    (sendToParent method args).args = args.map stringifyArg := by
  refine ⟨fun h => ⟨fun j hj => ?_, fun hj => ?_⟩, fun h => ?_, rfl, rfl, rfl⟩
  · simp [stringifyArg, h, hj]
  · simp [stringifyArg, h, hj]
  · simp [stringifyArg, h]

/-- Witness for `stringifyArg_spec`: a circular object falls back to
its string coercion, `null` (object-typed) serializes to the JSON text,
a boolean is string-coerced. -/
theorem stringifyArg_spec_witness :
    stringifyArg (JSValue.vObject none "[object Object]") = "[object Object]" ∧
    stringifyArg JSValue.vNull = "null" ∧
    stringifyArg (JSValue.vBool true) = "true" :=
  ⟨((stringifyArg_spec (JSValue.vObject none "[object Object]") "log" []).1 rfl).2 rfl,
   ((stringifyArg_spec JSValue.vNull "log" []).1 rfl).1 "null" rfl,
   (stringifyArg_spec (JSValue.vBool true) "log" []).2.1 (by decide)⟩

/-- A string argument is not object-typed, so the shim forwards it
unchanged. -/
theorem stringifyArg_vString (t : String) :
    stringifyArg (JSValue.vString t) = t := by
  simp [stringifyArg, jsTypeof, jsString]

/-- The shim's method names: only `CMethod.error` forwards as 'error'. -/
theorem CMethod.jsName_eq_error (c : CMethod) :
    c.jsName = "error" ↔ c = CMethod.error := by
  cases c <;> decide

/-- The pure delivery function agrees with the listener `onMessage` on
every forwarded payload (in particular the listener cannot throw on
them, their `args` being an array of strings). -/
theorem onMessage_toEvent (s : EditorState) (f : ForwardedMessage) :
    onMessage s f.toEvent = Except.ok (deliverForwarded s f) := by
  by_cases h : (f.type == "console") = true <;>
    · simp only [onMessage, ForwardedMessage.toEvent, deliverForwarded, addConsoleMessage,
        Bool.true_and, h]
      cases s.panel <;> simp [h]

/-- Delivering console-typed payloads to a state with a live panel
appends their (method, args) pairs to the log, in order. -/
theorem foldl_deliverForwarded_log (msgs : List ForwardedMessage) (s : EditorState)
    (nodes : List PanelNode) (hp : s.panel = some nodes)
    (ht : ∀ f ∈ msgs, f.type = "console") :
    (msgs.foldl deliverForwarded s).consoleMessages =
      s.consoleMessages ++ msgs.map (fun f => { method := f.method, args := f.args }) := by
  induction msgs generalizing s nodes with
  | nil => simp
  | cons f rest ih =>
      have hf : f.type = "console" := ht f (List.mem_cons_self f rest)
      have hstep : deliverForwarded s f =
          { s with
            panel := some (nodes ++ [PanelNode.message ("console-message " ++ f.method)
              (String.intercalate " " f.args)])
            consoleMessages := s.consoleMessages ++ [{ method := f.method, args := f.args }] } := by
        simp [deliverForwarded, hf, hp]
      rw [List.foldl_cons, hstep,
        ih _ _ rfl (fun g hg => ht g (List.mem_cons_of_mem f hg))]
      simp

/-- Every payload the preview document posts has `type` 'console'. -/
theorem runPreviewDoc_forwarded_type (u : UserEval) :
    ∀ f ∈ (runPreviewDoc u).forwarded, f.type = "console" := by
  intro f hf
  rcases hu : u.throws with _ | m
  · simp only [runPreviewDoc, hu, List.mem_map] at hf
    obtain ⟨c, _, rfl⟩ := hf
    rfl
  · simp only [runPreviewDoc, hu, List.mem_append, List.mem_map, List.mem_singleton] at hf
    rcases hf with ⟨c, _, rfl⟩ | rfl <;> rfl

/-- A user program that itself calls `console.error` once and then
throws at top level. -/
def throwingUser : UserEval :=
  { calls := [(CMethod.error, [JSValue.vString "user says"])], throws := some "boom" }

/-- Claim C3, counterexample: a user text that calls `console.error`
before throwing yields two error-kind entries in the console log after
the run, not exactly one — the catch block's entry comes on top of the
user's own. -/
theorem previewError_two_error_entries :
    (((runPreviewDoc throwingUser).forwarded.foldl deliverForwarded
        (runCode freshWidget)).consoleMessages.filter
      (fun msg => msg.method == "error")).length = 2 ∧
    (((runPreviewDoc throwingUser).forwarded.foldl deliverForwarded
        (runCode freshWidget)).consoleMessages.filter
      (fun msg => msg.method == "error")).length ≠ 1 :=
  ⟨rfl, by decide⟩

/-- Claim C3, amended: when the user code throws at top level, the
generated document catches it, installs the fallback error canvas
(showing `Error: ` plus the message), and the catch block contributes
exactly one error-kind console entry — so a user text that makes no
`console.error` call of its own before throwing leaves exactly one
error-kind entry in the widget's log after the run. -/
theorem previewError_fallback_single_error (u : UserEval) (m : String) (s : EditorState)
    (nodes : List PanelNode) (hp : s.panel = some nodes)
    (hthrow : u.throws = some m)
    (huser : ∀ c ∈ u.calls, c.1 ≠ CMethod.error) :
    (runPreviewDoc u).fallbackText = some ("Error: " ++ m) ∧
    ((runPreviewDoc u).forwarded.foldl deliverForwarded (runCode s)).consoleMessages.filter
        (fun msg => msg.method == "error") =
      [{ method := "error", args := ["Runtime Error: " ++ m] }] := by
  constructor
  · simp [runPreviewDoc, hthrow]
  · have hpanel : (runCode s).panel = some [] := by
      simp [runCode, clearConsole, hp]
    have hlog := foldl_deliverForwarded_log (runPreviewDoc u).forwarded (runCode s) []
      hpanel (runPreviewDoc_forwarded_type u)
    have hmsgs : (runCode s).consoleMessages = [] := rfl
    rw [hlog, hmsgs, List.nil_append]
    simp only [runPreviewDoc, hthrow, List.map_append, List.filter_append]
    have huserpart :
        ((u.calls.map (fun c => sendToParent c.1.jsName c.2)).map
            (fun f => ({ method := f.method, args := f.args } : ConsoleMsg))).filter
          (fun msg => msg.method == "error") = [] := by
      rw [List.filter_eq_nil_iff]
      intro a ha
      simp only [List.map_map, List.mem_map, Function.comp] at ha
      obtain ⟨c, hc, rfl⟩ := ha
      simp only [sendToParent, beq_iff_eq]
      intro heq
      exact huser c hc ((CMethod.jsName_eq_error c.1).mp heq)
    rw [huserpart, List.nil_append]
    simp [sendToParent, stringifyArg_vString]

/-- A user program that logs once (no error calls) and then throws. -/
def cleanThrowingUser : UserEval :=
  { calls := [(CMethod.log, [JSValue.vString "hi"])], throws := some "boom" }

/-- Witness for `previewError_fallback_single_error` at a concrete
throwing program and widget. -/
theorem previewError_fallback_witness :
    (runPreviewDoc cleanThrowingUser).fallbackText = some ("Error: " ++ "boom") ∧
    ((runPreviewDoc cleanThrowingUser).forwarded.foldl deliverForwarded
        (runCode freshWidget)).consoleMessages.filter (fun msg => msg.method == "error") =
      [{ method := "error", args := ["Runtime Error: " ++ "boom"] }] :=
  previewError_fallback_single_error cleanThrowingUser "boom" freshWidget
    [PanelNode.placeholder] rfl rfl (by decide)

/-- Trace invariant behind claim C4: starting from a state with a live
console panel, the log always equals the guard-passing messages
received since the most recent `runCode`/`clearConsole` (or since the
start), in arrival order, and the panel stays alive. -/
theorem runTraceConsole_log (ops : List ConsoleOp) (s s' : EditorState)
    (hp : s.panel ≠ none) (h : runTraceConsole s ops = Except.ok s') :
    s'.consoleMessages = expectedLog s.consoleMessages ops ∧ s'.panel ≠ none := by
  induction ops generalizing s with
  | nil =>
      simp only [runTraceConsole, Except.ok.injEq] at h
      subst h
      exact ⟨rfl, hp⟩
  | cons op ops ih =>
      cases op with
      | run =>
          simp only [runTraceConsole, stepConsole] at h
          have hp' : (runCode s).panel ≠ none := by
            rcases hps : s.panel with _ | nodes
            · exact absurd hps hp
            · simp [runCode, clearConsole, hps]
          have := ih (runCode s) hp' h
          exact ⟨this.1, this.2⟩
      | clear =>
          simp only [runTraceConsole, stepConsole] at h
          have hp' : (clearConsole s).panel ≠ none := by
            rcases hps : s.panel with _ | nodes
            · exact absurd hps hp
            · simp [clearConsole, hps]
          exact ih (clearConsole s) hp' h
      | edit t =>
          simp only [runTraceConsole, stepConsole] at h
          exact ih (editBuffer s t) hp h
      | set c =>
          simp only [runTraceConsole, stepConsole] at h
          exact ih (setCode s c) hp h
      | receive e =>
          simp only [runTraceConsole, stepConsole] at h
          by_cases hg : (e.truthy && e.typeIsConsole) = true
          · rcases hpanel : s.panel with _ | nodes
            · exact absurd hpanel hp
            · cases hargs : e.args with
              | notAnArray =>
                  rw [onMessage, if_pos hg, addConsoleMessage, hpanel, hargs] at h
                  simp at h
              | strings l =>
                  rw [onMessage, if_pos hg, addConsoleMessage, hpanel, hargs] at h
                  simp only [] at h
                  have := ih _ (by simp) h
                  rw [this.1]
                  refine ⟨?_, this.2⟩
                  simp [expectedLog, hg, hargs]
          · rw [onMessage, if_neg hg] at h
            have := ih s hp h
            rw [this.1]
            refine ⟨?_, this.2⟩
            simp only [expectedLog]
            rw [if_neg hg]

/-- Claim C4 (confirmed): with the console panel present, `runCode()`
clears the console log before loading the preview document, and along
any operation sequence the in-memory log contains exactly the messages
received (passing the listener's guard) since the most recent
`clearConsole()` or `runCode()`, in arrival order. -/
theorem runCode_clear_log_invariant (opts : EditorOptions) (hsc : opts.showConsole = true)
    (ops : List ConsoleOp) (s' : EditorState)
    (h : runTraceConsole (init opts) ops = Except.ok s') :
    (∀ s, (runCode s).consoleMessages = []) ∧
    s'.consoleMessages = expectedLog [] ops := by
  have hp : (init opts).panel ≠ none := by
    by_cases har : (opts.autoRun && strTruthy opts.initialCode) = true <;>
      simp [init, createStructure, har, runCode, clearConsole, setCode, hsc]
  have hm : (init opts).consoleMessages = [] := by
    by_cases har : (opts.autoRun && strTruthy opts.initialCode) = true <;>
      simp [init, createStructure, har, runCode, clearConsole, setCode]
  have hmain := runTraceConsole_log ops (init opts) s' hp h
  exact ⟨fun s => rfl, by rw [hmain.1, hm]⟩

/-- A well-shaped forwarded `console.log` message event. -/
def logHiEvent : EventData :=
  { truthy := true, typeIsConsole := true, method := "log", args := JSArgs.strings ["hi"] }

/-- A two-step trace: a clear, then arrival of one message. -/
def clearThenReceive : List ConsoleOp :=
  [ConsoleOp.clear, ConsoleOp.receive logHiEvent]

/-- The state that trace leaves a fresh default widget in. -/
def clearThenReceiveState : EditorState :=
  { buffer := ""
    originalCode := ""
    consoleMessages := [{ method := "log", args := ["hi"] }]
    panel := some [PanelNode.message "console-message log" "hi"]
    previewSrc := none
    examples := []
    tabs := []
    tabsVisible := false }

/-- Witness for `runCode_clear_log_invariant` on a concrete trace. -/
theorem runCode_clear_log_witness :
    clearThenReceiveState.consoleMessages = expectedLog [] clearThenReceive :=
  (runCode_clear_log_invariant {} rfl clearThenReceive clearThenReceiveState rfl).2

/-- Claim C9 (confirmed): selecting the example at a valid index `i`
loads its code into the editor (and remembers it as the resettable
original), triggers a run of that code, and makes tab `i` the sole
active tab. -/
theorem loadExample_spec (s : EditorState) (i : Nat) (ex : String × String)
    (hex : s.examples.get? i = some ex)
    (hlen : s.tabs.length = s.examples.length) :
    (loadExample s i).buffer = ex.2 ∧
    (loadExample s i).originalCode = ex.2 ∧
    (loadExample s i).previewSrc = some (generatePreviewHTML ex.2) ∧
    (loadExample s i).tabs.get? i = some true ∧
    (∀ j, j ≠ i → (loadExample s i).tabs.get? j ≠ some true) := by
  have hi : i < s.examples.length := by
    by_contra hni
    push_neg at hni
    rw [List.get?_eq_none.mpr hni] at hex
    cases hex
  have hload : loadExample s i =
      runCode (setCode
        { s with tabs := (List.range s.tabs.length).map (fun k => decide (k = i)) } ex.2) := by
    unfold loadExample
    rw [hex]
  have htabs : (loadExample s i).tabs =
      (List.range s.tabs.length).map (fun k => decide (k = i)) := by
    rw [hload]
    simp [runCode, clearConsole, setCode, getCode]
  refine ⟨?_, ?_, ?_, ?_, ?_⟩
  · rw [hload]; simp [runCode, clearConsole, setCode, getCode]
  · rw [hload]; simp [runCode, clearConsole, setCode, getCode]
  · rw [hload]; simp [runCode, clearConsole, setCode, getCode]
  · rw [htabs, List.get?_map, List.get?_range (by rw [hlen]; exact hi)]
    simp
  · intro j hj
    rw [htabs, List.get?_map]
    rcases Nat.lt_or_ge j s.tabs.length with hjl | hjg
    · rw [List.get?_range hjl]
      simp [hj]
    · rw [List.get?_eq_none.mpr (by simpa using hjg)]
      simp

/-- A widget carrying two examples, with tab 0 active. -/
def tabbedWidget : EditorState :=
  { freshWidget with
    examples := [("first", "code0"), ("second", "code1")]
    tabs := [true, false]
    tabsVisible := true }

/-- Witness for `loadExample_spec`: selecting example 1 on a concrete
two-example widget. -/
theorem loadExample_witness :
    (loadExample tabbedWidget 1).buffer = "code1" ∧
    (loadExample tabbedWidget 1).previewSrc = some (generatePreviewHTML "code1") ∧
    (loadExample tabbedWidget 1).tabs.get? 1 = some true ∧
    (loadExample tabbedWidget 1).tabs.get? 0 ≠ some true := by
  obtain ⟨h1, _, h3, h4, h5⟩ :=
    loadExample_spec tabbedWidget 1 ("second", "code1") rfl rfl
  exact ⟨h1, h3, h4, h5 0 (by decide)⟩

/-- Every widget operation keeps a panel-less widget panel-less with an
empty log (in particular `addConsoleMessage` records nothing). -/
theorem stepWidget_noPanel (s s' : EditorState) (op : WidgetOp)
    (hp : s.panel = none) (hm : s.consoleMessages = [])
    (h : stepWidget s op = Except.ok s') :
    s'.panel = none ∧ s'.consoleMessages = [] := by
  cases op with
  | run =>
      simp only [stepWidget, Except.ok.injEq] at h
      subst h
      simp [runCode, clearConsole, hp]
  | clear =>
      simp only [stepWidget, Except.ok.injEq] at h
      subst h
      simp [clearConsole, hp]
  | edit t =>
      simp only [stepWidget, Except.ok.injEq] at h
      subst h
      exact ⟨hp, hm⟩
  | set c =>
      simp only [stepWidget, Except.ok.injEq] at h
      subst h
      exact ⟨hp, hm⟩
  | reset =>
      simp only [stepWidget, Except.ok.injEq] at h
      subst h
      by_cases hg : s.originalCode ≠ "" <;>
        simp [resetCode, hg, runCode, clearConsole, editBuffer, hp, hm]
  | load i =>
      simp only [stepWidget, Except.ok.injEq] at h
      subst h
      unfold loadExample
      split <;> simp [runCode, clearConsole, setCode, hp, hm]
  | setEx l =>
      simp only [stepWidget, Except.ok.injEq] at h
      subst h
      unfold setExamples
      by_cases hl : l.isEmpty
      · simp [hl, hp, hm]
      · rw [if_neg hl]
        unfold loadExample
        dsimp only
        split <;> simp [runCode, clearConsole, setCode, hp, hm]
  | receive e =>
      simp only [stepWidget, onMessage] at h
      by_cases hg : (e.truthy && e.typeIsConsole) = true
      · rw [if_pos hg, addConsoleMessage, hp] at h
        simp only [Except.ok.injEq] at h
        subst h
        exact ⟨hp, hm⟩
      · rw [if_neg hg] at h
        simp only [Except.ok.injEq] at h
        subst h
        exact ⟨hp, hm⟩

/-- Trace form of `stepWidget_noPanel`. -/
theorem runTraceWidget_noConsole (ops : List WidgetOp) (s s' : EditorState)
    (hp : s.panel = none) (hm : s.consoleMessages = [])
    (h : runTraceWidget s ops = Except.ok s') :
    s'.panel = none ∧ s'.consoleMessages = [] := by
  induction ops generalizing s with
  | nil =>
      simp only [runTraceWidget, Except.ok.injEq] at h
      subst h
      exact ⟨hp, hm⟩
  | cons op ops ih =>
      simp only [runTraceWidget] at h
      rcases hstep : stepWidget s op with msg | s1 <;> rw [hstep] at h
      · cases h
      · obtain ⟨hp1, hm1⟩ := stepWidget_noPanel s s1 op hp hm hstep
        exact ih s1 hp1 hm1 h

/-- Claim C10 (confirmed): constructed with `showConsole: false` (no
console panel element), the widget drops every forwarded console
message — `addConsoleMessage` returns before recording anything — and
the in-memory console log stays empty across all operations. -/
theorem showConsole_false_drops_all (opts : EditorOptions) (hsc : opts.showConsole = false)
    (ops : List WidgetOp) (s' : EditorState)
    (h : runTraceWidget (init opts) ops = Except.ok s') :
    s'.consoleMessages = [] ∧
    ∀ (method : String) (args : JSArgs), addConsoleMessage s' method args = Except.ok s' := by
  have hp0 : (init opts).panel = none := by
    by_cases har : (opts.autoRun && strTruthy opts.initialCode) = true <;>
      simp [init, createStructure, har, runCode, clearConsole, setCode, hsc]
  have hm0 : (init opts).consoleMessages = [] := by
    by_cases har : (opts.autoRun && strTruthy opts.initialCode) = true <;>
      simp [init, createStructure, har, runCode, clearConsole, setCode]
  obtain ⟨hp, hm⟩ := runTraceWidget_noConsole ops (init opts) s' hp0 hm0 h
  refine ⟨hm, fun method args => ?_⟩
  rw [addConsoleMessage, hp]

/-- A widget built with `showConsole: false`. -/
def noConsoleWidget : EditorState :=
  createStructure { showConsole := false }

/-- Witness for `showConsole_false_drops_all`: a fresh console-less
widget that has received one well-shaped message still has an empty
log, and `addConsoleMessage` is a no-op on it. -/
theorem showConsole_false_witness :
    noConsoleWidget.consoleMessages = [] ∧
    addConsoleMessage noConsoleWidget "log" (JSArgs.strings ["hi"]) =
      Except.ok noConsoleWidget := by
  obtain ⟨h1, h2⟩ := showConsole_false_drops_all { showConsole := false } rfl
    [WidgetOp.receive logHiEvent] noConsoleWidget rfl
  exact ⟨h1, h2 "log" (JSArgs.strings ["hi"])⟩
